import Mathlib

/-!
Shallow embedding of the orbit/clock resolution engine of the rinex
repository (nav-solutions/rinex): ephemeris data model, validity policy,
ephemeris selection, clock correction, the Kepler fixed-point loop and the
BeiDou-GEO rotation stages, together with theorems settling the frozen
claims about this code.

Numeric convention: the Rust code computes over f64; the embedding models
those values over the rationals (exact arithmetic) except for the rotation
matrices, which need trigonometry and are modelled over the reals.
-/

namespace RinexNav

/-- Timescales of interest, as tagged by hifitime Epochs
(external dependency of the repository). -/
inductive TimeScale
  | GPST
  | GST
  | BDT
  | QZSST
  | UTC
  deriving DecidableEq

/-- GNSS constellations, modelled from the gnss-rs dependency: the named
global constellations, a sample of SBAS/GEO augmentation systems, and the
Mixed marker used by multi-constellation files. -/
inductive Constellation
  | GPS
  | Glonass
  | BeiDou
  | QZSS
  | Galileo
  | IRNSS
  | EGNOS
  | WAAS
  | MSAS
  | GAGAN
  | SDCM
  | SBAS
  | Mixed
  deriving DecidableEq

/-- True for the SBAS/GEO augmentation constellations
(gnss-rs Constellation::is_sbas). -/
def Constellation.is_sbas : Constellation → Bool
  | .EGNOS | .WAAS | .MSAS | .GAGAN | .SDCM | .SBAS => true
  | _ => false

/-- Native timescale of a constellation
(gnss-rs Constellation::timescale, external dependency). -/
def Constellation.timescale : Constellation → Option TimeScale
  | .GPS => some .GPST
  | .QZSS => some .QZSST
  | .Galileo => some .GST
  | .BeiDou => some .BDT
  | .Glonass => some .UTC
  | .EGNOS | .WAAS | .MSAS | .GAGAN | .SDCM | .SBAS => some .GPST
  | _ => none

/-- Durations are modelled as exact rational numbers of seconds
(hifitime Duration is a signed quantity with total order). -/
abbrev Duration := ℚ

/-- Duration::from_seconds. -/
def Duration.from_seconds (s : ℚ) : Duration := s

/-- Duration::from_days. -/
def Duration.from_days (d : ℚ) : Duration := (d * 86400 : ℚ)

/-- Duration::to_seconds. -/
def Duration.to_seconds (d : Duration) : ℚ := d

/-- Duration::abs. -/
def Duration.abs (d : Duration) : Duration := |(d : ℚ)|

/-- Reference instant of each timescale, in seconds on a common absolute
axis (hifitime anchors every timescale on TAI; the exact constants play no
role in any property proved here, only that epochs live on one axis). -/
def TimeScale.ref_seconds : TimeScale → ℚ
  | .GPST => 2524953619
  | .QZSST => 2524953619
  | .GST => 3144268819
  | .BDT => 3345062433
  | .UTC => 0

/-- Epochs, modelled as an absolute instant (seconds on the common axis)
tagged with the timescale of the representation (hifitime Epoch). -/
structure Epoch where
  instant : ℚ
  time_scale : TimeScale
  deriving DecidableEq

/-- Difference of two epochs as a signed Duration: instants are absolute,
so the difference does not depend on the representation tags
(hifitime converts operands to a common timescale before subtracting). -/
def Epoch.sub (a b : Epoch) : Duration := (a.instant - b.instant : ℚ)

/-- Epoch::to_time_scale rewrites the representation tag and keeps the
physical instant. -/
def Epoch.to_time_scale (e : Epoch) (ts : TimeScale) : Epoch :=
  { instant := e.instant, time_scale := ts }

/-- Epoch::from_time_of_week: reference of the timescale plus whole weeks
plus nanoseconds. -/
def Epoch.from_time_of_week (week : ℕ) (nanos : ℕ) (ts : TimeScale) : Epoch :=
  { instant := ts.ref_seconds + (week : ℚ) * 604800 + (nanos : ℚ) / 1000000000,
    time_scale := ts }

/-- Satellite identity: constellation and PRN number (gnss-rs SV). -/
structure SV where
  constellation : Constellation
  prn : ℕ
  deriving DecidableEq

/-- GPS/QZSS L1/L2/L5 health word. Modelled from the spec: the flags
module interprets it only through a healthy predicate. -/
structure GpsQzssl1l2l5Health where
  healthy : Bool
  deriving DecidableEq

/-- GPS/QZSS L1C health bits. Modelled from the spec: the code only asks
whether the UNHEALTHY bits intersect the word. -/
structure GpsQzssl1cHealth where
  unhealthy : Bool
  deriving DecidableEq

/-- Glonass health bits. Modelled from the spec: the code only asks
whether the UNHEALTHY bits intersect the word. -/
structure GlonassHealth where
  unhealthy : Bool
  deriving DecidableEq

/-- Glonass almanac health bits. Modelled from the spec: the code only
asks whether the HEALTHY_ALMANAC bits intersect the word. -/
structure GlonassHealth2 where
  healthy_almanac : Bool
  deriving DecidableEq

/-- SBAS/GEO health word. Modelled from the spec: raw bits, never
interpreted by the health decision. -/
structure GeoHealth where
  bits : ℕ
  deriving DecidableEq

/-- BeiDou SatH1 flag. Modelled from the spec: the code only asks whether
the UNHEALTHY bit intersects the word. -/
structure BdsSatH1 where
  unhealthy : Bool
  deriving DecidableEq

/-- Modern BeiDou health enumeration, with its dedicated testing state. -/
inductive BdsHealth
  | Healthy
  | Unhealthy
  | UnhealthyTesting
  deriving DecidableEq

/-- Typed value stored in the orbit parameter dictionary. Modelled from
the spec: a tagged variant par field kind; each downcast accessor succeeds
exactly on its own variant. -/
inductive OrbitItem
  | f64 (value : ℚ)
  | u32 (value : ℕ)
  | gpsQzssL1L2L5Health (flag : GpsQzssl1l2l5Health)
  | gpsQzssL1cHealth (flag : GpsQzssl1cHealth)
  | glonassHealth (flag : GlonassHealth)
  | glonassHealth2 (flag : GlonassHealth2)
  | geoHealth (flag : GeoHealth)
  | bdsSatH1 (flag : BdsSatH1)
  | bdsHealth (flag : BdsHealth)
  deriving DecidableEq

namespace OrbitItem

/-- Cast to f64, always feasible whatever the inner interpretation. -/
def as_f64 : OrbitItem → ℚ
  | .f64 v => v
  | .u32 v => (v : ℚ)
  | _ => 0

/-- Cast to u32. -/
def as_u32 : OrbitItem → ℕ
  | .u32 v => v
  | .f64 v => v.floor.toNat
  | _ => 0

/-- Downcast to the GPS/QZSS L1/L2/L5 health word. -/
def as_gps_qzss_l1l2l5_health_flag : OrbitItem → Option GpsQzssl1l2l5Health
  | .gpsQzssL1L2L5Health flag => some flag
  | _ => none

/-- Downcast to the GPS/QZSS L1C health bits. -/
def as_gps_qzss_l1c_health_flag : OrbitItem → Option GpsQzssl1cHealth
  | .gpsQzssL1cHealth flag => some flag
  | _ => none

/-- Downcast to the Glonass health bits. -/
def as_glonass_health_flag : OrbitItem → Option GlonassHealth
  | .glonassHealth flag => some flag
  | _ => none

/-- Downcast to the Glonass almanac health bits. -/
def as_glonass_health2_flag : OrbitItem → Option GlonassHealth2
  | .glonassHealth2 flag => some flag
  | _ => none

/-- Downcast to the SBAS/GEO health word. -/
def as_geo_health_flag : OrbitItem → Option GeoHealth
  | .geoHealth flag => some flag
  | _ => none

/-- Downcast to the BeiDou SatH1 flag. -/
def as_bds_sat_h1_flag : OrbitItem → Option BdsSatH1
  | .bdsSatH1 flag => some flag
  | _ => none

/-- Downcast to the modern BeiDou health enumeration. -/
def as_bds_health_flag : OrbitItem → Option BdsHealth
  | .bdsHealth flag => some flag
  | _ => none

end OrbitItem

/-- Error taxonomy of the ephemeris engine
(navigation/ephemeris/mod.rs EphemerisError). -/
inductive EphemerisError
  | BadOperation
  | NotSupported (constellation : Constellation)
  | Diverged
  | MissingData
  | BeidouIgsoNotSupported
  | FrameSelectionError (epoch : Epoch) (sv : SV)
  deriving DecidableEq

/-- Ephemeris navigation message: clock polynomial terms plus the orbit
parameter dictionary (navigation/ephemeris/mod.rs Ephemeris; the HashMap
is modelled as an association list queried by key). -/
structure Ephemeris where
  clock_bias : ℚ
  clock_drift : ℚ
  clock_drift_rate : ℚ
  orbits : List (String × OrbitItem)
  deriving DecidableEq

namespace Ephemeris

/-- HashMap::get on the orbit dictionary. -/
def get_orbit (e : Ephemeris) (field : String) : Option OrbitItem :=
  e.orbits.lookup field

/-- Ephemeris::clock_bias_drift_driftrate. -/
def clock_bias_drift_driftrate (e : Ephemeris) : ℚ × ℚ × ℚ :=
  (e.clock_bias, e.clock_drift, e.clock_drift_rate)

/-- Ephemeris::get_orbit_field_f64 (navigation/ephemeris/mod.rs):
requested data field, MissingData when absent. -/
def get_orbit_field_f64 (e : Ephemeris) (field : String) :
    Except EphemerisError ℚ :=
  match e.get_orbit field with
  | none => .error .MissingData
  | some value => .ok value.as_f64

/-- Option-returning field accessor used by the kepler module revision
(navigation/ephemeris/kepler/mod.rs). -/
def get_orbit_field_f64_opt (e : Ephemeris) (field : String) : Option ℚ :=
  (e.get_orbit field).map OrbitItem.as_f64

/-- Ephemeris::week_number. -/
def week_number (e : Ephemeris) : Except EphemerisError ℕ :=
  match e.get_orbit "week" with
  | none => .error .MissingData
  | some week => .ok week.as_u32

/-- Ephemeris::week_seconds. -/
def week_seconds (e : Ephemeris) : Except EphemerisError ℚ :=
  e.get_orbit_field_f64 "toe"

/-- Ephemeris::satellite_is_healthy (navigation/ephemeris/mod.rs):
layered constellation-specific interpretation of the health field,
unhealthy by default. -/
def satellite_is_healthy (e : Ephemeris) : Bool :=
  match e.get_orbit "health" with
  | none => false
  | some health =>
    match health.as_gps_qzss_l1l2l5_health_flag with
    | some flag => flag.healthy
    | none =>
      match health.as_gps_qzss_l1c_health_flag with
      | some flag => !flag.unhealthy
      | none =>
        match health.as_glonass_health_flag with
        | some flag =>
          match (e.get_orbit "health2").map
              (fun item => item.as_glonass_health2_flag) with
          | some (some flag2) => !flag.unhealthy && flag2.healthy_almanac
          | some none => false
          | none => !flag.unhealthy
        | none =>
          match health.as_geo_health_flag with
          | some _flag => false
          | none =>
            match health.as_bds_sat_h1_flag with
            | some flag => !flag.unhealthy
            | none =>
              match health.as_bds_health_flag with
              | some flag => flag == BdsHealth.Healthy
              | none => false

/-- Ephemeris::satellite_under_test: only the modern BeiDou enumeration
has a dedicated testing state. -/
def satellite_under_test (e : Ephemeris) : Bool :=
  match e.get_orbit "health" with
  | none => false
  | some health =>
    match health.as_bds_health_flag with
    | some flag => flag == BdsHealth.UnhealthyTesting
    | none => false

/-- Rounding of an f64 as performed by Rust round: half away from zero. -/
def rust_round (q : ℚ) : ℤ :=
  if 0 ≤ q then ⌊q + 1 / 2⌋ else ⌈q - 1 / 2⌉

/-- Saturating cast of a float to u64 as performed by Rust: negative
values clamp to zero, overly large values clamp to the maximum. -/
def rust_as_u64 (z : ℤ) : ℕ :=
  if z < 0 then 0
  else if z > (2 ^ 64 - 1 : ℤ) then (2 ^ 64 - 1 : ℕ)
  else z.toNat

/-- Ephemeris::toe (navigation/ephemeris/mod.rs): Time of Ephemeris as an
Epoch; BadOperation for SBAS and Glonass, week plus second-of-week in the
constellation timescale otherwise. -/
def toe (e : Ephemeris) (satellite : SV) : Except EphemerisError Epoch :=
  if satellite.constellation.is_sbas then .error .BadOperation
  else if satellite.constellation = .Glonass then .error .BadOperation
  else
    match e.week_number, e.week_seconds with
    | .ok week, .ok seconds =>
      let nanos := rust_as_u64 (rust_round (seconds * 1000000000))
      match satellite.constellation with
      | .GPS | .Galileo => .ok (Epoch.from_time_of_week week nanos .GPST)
      | .QZSS => .ok (Epoch.from_time_of_week week nanos .QZSST)
      | .BeiDou => .ok (Epoch.from_time_of_week week nanos .BDT)
      | c => .error (.NotSupported c)
    | .error err, _ => .error err
    | .ok _, .error err => .error err

/-- Ephemeris::validity_duration (navigation/ephemeris/mod.rs): validity
period of an ephemeris frame per constellation. -/
def validity_duration (constellation : Constellation) : Option Duration :=
  match constellation with
  | .GPS | .QZSS => some (Duration.from_seconds 7200)
  | .Galileo => some (Duration.from_seconds 10800)
  | .BeiDou => some (Duration.from_seconds 21600)
  | .IRNSS => some (Duration.from_seconds 7200)
  | .Glonass => some (Duration.from_seconds 1800)
  | c =>
    if c.is_sbas then
      -- for GEO sat the source tolerates a 24h timeframe comment-wise,
      -- while the constructed value is Duration::from_days(1.25)
      some (Duration.from_days (5 / 4))
    else none

/-- Ephemeris::is_valid (navigation/ephemeris/mod.rs): validity of this
frame at an epoch, via ToC for SBAS/Glonass and via ToE otherwise. -/
def is_valid (e : Ephemeris) (satellite : SV) (toc epoch : Epoch) : Bool :=
  match validity_duration satellite.constellation with
  | none => false
  | some max_dtoe =>
    if satellite.constellation.is_sbas
        || satellite.constellation == .Glonass then
      decide ((epoch.sub toc).abs < max_dtoe)
    else
      match e.toe satellite with
      | .ok toe_epoch => decide ((epoch.sub toe_epoch).abs < max_dtoe)
      | .error _ => false

/-- Loop body sequence of Ephemeris::clock_correction: num_iter updates
of dt, each subtracting the clock polynomial evaluated at dt. -/
def clock_correction_loop (a0 a1 a2 : ℚ) : ℕ → ℚ → ℚ
  | 0, dt => dt
  | n + 1, dt => clock_correction_loop a0 a1 a2 n (dt - (a0 + a1 * dt + a2 * dt ^ 2))

/-- Ephemeris::clock_correction (navigation/ephemeris/mod.rs): iterative
clock bias resolution in the satellite native timescale. -/
def clock_correction (e : Ephemeris) (satellite : SV) (toc epoch : Epoch)
    (num_iter : ℕ) : Except EphemerisError Duration :=
  match satellite.constellation.timescale with
  | none => .error (.NotSupported satellite.constellation)
  | some sv_ts =>
    let t_sv := epoch.to_time_scale sv_ts
    let toc_sv := toc.to_time_scale sv_ts
    let a0 := e.clock_bias
    let a1 := e.clock_drift
    let a2 := e.clock_drift_rate
    let dt0 := (t_sv.sub toc_sv).to_seconds
    let dt := clock_correction_loop a0 a1 a2 num_iter dt0
    .ok (Duration.from_seconds (a0 + a1 * dt + a2 * dt ^ 2))

end Ephemeris

/-- Navigation frame classes stored in a navigation record
(navigation NavFrameType). -/
inductive NavFrameType
  | ephemeris
  | ionosphereModel
  | systemTimeOffset
  | earthOrientation
  deriving DecidableEq

/-- Navigation message classes stored in a navigation record
(navigation NavMessageType). -/
inductive NavMessageType
  | lnav
  | fnav
  | inav
  | cnav
  | cnv2
  deriving DecidableEq

/-- Index of an Ephemeris in the record collection: time of clock,
satellite, frame class, message class (navigation NavKey). -/
structure NavKey where
  epoch : Epoch
  sv : SV
  frmtype : NavFrameType
  msgtype : NavMessageType
  deriving DecidableEq

/-- Modelled from the spec: the navigation record is an ordered multi-map
of NavKey to Ephemeris; nav_ephemeris_frames_iter yields its entries in
iteration order, modelled as a list. -/
def NavRecord := List (NavKey × Ephemeris)

/-- Rust Iterator::min_by_key: least element under the key, the first one
on ties, none on an empty iterator. -/
def min_by_key {α β : Type} [LinearOrder β] (key : α → β) : List α → Option α
  | [] => none
  | x :: xs =>
    match min_by_key key xs with
    | none => some x
    | some y => if key x ≤ key y then some x else some y

/-- Candidate pool of the SBAS branch of Rinex::nav_ephemeris_selection:
every stored record of the satellite, ToE defined as ToC. -/
def selection_pool_sbas (record : NavRecord) (sv : SV) :
    List (Epoch × Epoch × Ephemeris) :=
  record.filterMap fun ke =>
    if ke.1.sv == sv then some (ke.1.epoch, ke.1.epoch, ke.2) else none

/-- Candidate pool of the general branch of Rinex::nav_ephemeris_selection:
records of the satellite that pass the validity filter and whose ToE is
computable. The draft in feature.rs invokes a two-argument validity
predicate; its time of clock is the record key epoch, per the spec. -/
def selection_pool_others (record : NavRecord) (sv : SV) (t : Epoch) :
    List (Epoch × Epoch × Ephemeris) :=
  record.filterMap fun ke =>
    if ke.1.sv == sv then
      if ke.2.is_valid sv ke.1.epoch t then
        match ke.2.toe ke.1.sv with
        | .ok toe_epoch => some (ke.1.epoch, toe_epoch, ke.2)
        | .error _ => none
      else none
    else none

/-- Rinex::nav_ephemeris_selection (navigation/rinex/feature.rs): the
authoritative (toc, toe, ephemeris) triplet for a satellite and epoch.
The SBAS branch minimizes the signed difference of the query epoch and
ToC; the general branch minimizes the absolute difference to ToE. -/
def nav_ephemeris_selection (record : NavRecord) (sv : SV) (t : Epoch) :
    Option (Epoch × Epoch × Ephemeris) :=
  if sv.constellation.is_sbas then
    min_by_key (fun c => t.sub c.1) (selection_pool_sbas record sv)
  else
    min_by_key (fun c => (t.sub c.2.1).abs) (selection_pool_others record sv t)

/-- Iterate sequence of the Kepler fixed-point loop: E 0 = 0 and
E (k+1) = M + e * sin (E k), over an arbitrary sine evaluator. -/
def kepler_iterate (sinq : ℚ → ℚ) (m_k ecc : ℚ) : ℕ → ℚ
  | 0 => 0
  | k + 1 => m_k + ecc * sinq (kepler_iterate sinq m_k ecc k)

/-- Convergence tolerance of the Kepler loop: 1e-10 radians. -/
def kepler_tolerance : ℚ := 1 / 10000000000

/-- Body of the loop of Ephemeris::solver (navigation/ephemeris/kepler/
solver.rs lines 250 to 273), recursing on the number of update passes the
counter check still allows: the source counter i gives up when i exceeds
max_iteration, which leaves exactly max_iteration + 1 - i passes; zero
passes left is the give-up branch, otherwise one update of e_k from
e_k_lst, the tolerance check, and the next pass. -/
def kepler_loop_go (sinq : ℚ → ℚ) (m_k ecc : ℚ) : ℕ → ℚ → Option ℚ
  | 0, _ => none
  | fuel + 1, e_k_lst =>
    let e_k := m_k + ecc * sinq e_k_lst
    if |e_k - e_k_lst| < kepler_tolerance then some e_k
    else kepler_loop_go sinq m_k ecc fuel e_k

/-- Loop of Ephemeris::solver entered at counter i: the counter check
i > max_iteration bounds the remaining passes by max_iteration + 1 - i. -/
def kepler_solver_loop (sinq : ℚ → ℚ) (m_k ecc : ℚ) (max_iteration : ℕ)
    (i : ℕ) (e_k_lst : ℚ) : Option ℚ :=
  kepler_loop_go sinq m_k ecc (max_iteration + 1 - i) e_k_lst

/-- Entry point of the Kepler loop: counter 0, previous iterate 0. -/
def kepler_solver (sinq : ℚ → ℚ) (m_k ecc : ℚ) (max_iteration : ℕ) :
    Option ℚ :=
  kepler_solver_loop sinq m_k ecc max_iteration 0 0

/-- Written from the claim: the loop returns the iterate at the first
index within the iteration budget whose step is below tolerance, and
nothing when no index within the budget converges. -/
def kepler_solver_spec (sinq : ℚ → ℚ) (m_k ecc : ℚ) (max_iteration : ℕ) :
    Option ℚ :=
  (((List.range (max_iteration + 1)).find? fun i =>
      decide (|kepler_iterate sinq m_k ecc (i + 1)
        - kepler_iterate sinq m_k ecc i| < kepler_tolerance)).map
    fun i => kepler_iterate sinq m_k ecc (i + 1))

/-- Six-component ECEF state vector in kilometers (anise Vector6). -/
structure Vector6 where
  x : ℚ
  y : ℚ
  z : ℚ
  vx : ℚ
  vy : ℚ
  vz : ℚ
  deriving DecidableEq

/-- Cartesian branch of Ephemeris::sv_position_velocity_km
(navigation/ephemeris/kepler/mod.rs lines 158 to 198), taken for SBAS and
Glonass satellites: Taylor propagation of the broadcast state, velocity
slots of the output filled with zeros. -/
def Ephemeris.sv_position_velocity_km_cartesian (e : Ephemeris)
    (toc epoch : Epoch) : Except EphemerisError Vector6 :=
  match e.get_orbit_field_f64_opt "posX", e.get_orbit_field_f64_opt "posY",
      e.get_orbit_field_f64_opt "posZ" with
  | some pos_x, some pos_y, some pos_z =>
    match e.get_orbit_field_f64_opt "velX", e.get_orbit_field_f64_opt "velY",
        e.get_orbit_field_f64_opt "velZ" with
    | some vel_x, some vel_y, some vel_z =>
      let accel : ℚ × ℚ × ℚ :=
        match e.get_orbit_field_f64_opt "accelX",
            e.get_orbit_field_f64_opt "accelY",
            e.get_orbit_field_f64_opt "accelZ" with
        | some accel_x, some accel_y, some accel_z =>
          (accel_x, accel_y, accel_z)
        | _, _, _ => (0, 0, 0)
      let dt := (toc.sub epoch).to_seconds
      let r_x := pos_x + vel_x * dt + accel.1 * dt ^ 2 / 2
      let r_y := pos_y + vel_y * dt + accel.2.1 * dt ^ 2 / 2
      let r_z := pos_z + vel_z * dt + accel.2.2 * dt ^ 2 / 2
      .ok { x := r_x, y := r_y, z := r_z, vx := 0, vy := 0, vz := 0 }
    | _, _, _ => .error .MissingData
  | _, _, _ => .error .MissingData

/-- Written from the claim, branch order as the spec phrases it: GLONASS
and SBAS compare the epoch against ToC, everything else against ToE, and
the predicate is false without a validity window or a computable ToE. -/
def Ephemeris.is_valid_spec (e : Ephemeris) (satellite : SV) (toc epoch : Epoch) :
    Bool :=
  if satellite.constellation.is_sbas
      || satellite.constellation == .Glonass then
    match Ephemeris.validity_duration satellite.constellation with
    | some window => decide ((epoch.sub toc).abs < window)
    | none => false
  else
    match Ephemeris.validity_duration satellite.constellation, e.toe satellite with
    | some window, .ok toe_epoch => decide ((epoch.sub toe_epoch).abs < window)
    | _, _ => false

/-- Written from the claim: both instants moved to the satellite native
timescale, dt seeded with their difference in seconds, exactly num_iter
polynomial refinement passes, final polynomial value as a Duration;
NotSupported exactly when the constellation has no timescale. -/
def Ephemeris.clock_correction_spec (e : Ephemeris) (satellite : SV)
    (toc epoch : Epoch) (num_iter : ℕ) : Except EphemerisError Duration :=
  match satellite.constellation.timescale with
  | none => .error (.NotSupported satellite.constellation)
  | some sv_ts =>
    let poly := fun dt : ℚ =>
      e.clock_bias + e.clock_drift * dt + e.clock_drift_rate * dt ^ 2
    let dt0 := ((epoch.to_time_scale sv_ts).sub (toc.to_time_scale sv_ts)).to_seconds
    let dt := (fun dt => dt - poly dt)^[num_iter] dt0
    .ok (Duration.from_seconds (poly dt))

/-- Validity windows as the amended claim states them: the SBAS/GEO
window is 1.25 days, that is 108000 seconds, not one day. -/
def validity_duration_amended : Constellation → Option Duration
  | .GPS | .QZSS => some 7200
  | .Galileo => some 10800
  | .BeiDou => some 21600
  | .IRNSS => some 7200
  | .Glonass => some 1800
  | .EGNOS | .WAAS | .MSAS | .GAGAN | .SDCM | .SBAS => some 108000
  | .Mixed => none

section BeidouGeoRotation

open Real

/-- f64::to_radians: degrees to radians. -/
noncomputable def to_radians (x : ℝ) : ℝ := x * Real.pi / 180

/-- Rotation about the X axis by an angle in radians (nalgebra
Rotation3::from_axis_angle on the x axis, counterclockwise). -/
noncomputable def rotX (a : ℝ) : Matrix (Fin 3) (Fin 3) ℝ :=
  !![1, 0, 0; 0, Real.cos a, -Real.sin a; 0, Real.sin a, Real.cos a]

/-- Rotation about the Z axis by an angle in radians (nalgebra
Rotation3::from_axis_angle on the z axis, counterclockwise). -/
noncomputable def rotZ (a : ℝ) : Matrix (Fin 3) (Fin 3) ℝ :=
  !![Real.cos a, -Real.sin a, 0; Real.sin a, Real.cos a, 0; 0, 0, 1]

/-- Earth rotation rate constant of the BeiDou ICD, in radians per
second, as written in both BDS-GEO paths of the solver. -/
noncomputable def omega_bds : ℝ := 7292115 / 100000000000

/-- Kepler Solver state (navigation/ephemeris/kepler/solver.rs Solver):
corrected orbital quantities and their first derivatives. -/
structure SolverState where
  satellite : SV
  dt_seconds : ℝ
  u_k : ℝ
  r_k : ℝ
  i_k : ℝ
  omega_k : ℝ
  fd_u_k : ℝ
  fd_r_k : ℝ
  fd_i_k : ℝ
  fd_omega_k : ℝ
  dtr : ℝ
  fd_dtr : ℝ
  r_sv : ℝ × ℝ × ℝ

namespace SolverState

/-- Solver::orbit_velocity: first temporal derivatives of the in-plane
orbital position. -/
noncomputable def orbit_velocity (s : SolverState) : ℝ × ℝ :=
  (s.fd_r_k * Real.cos s.u_k - s.r_k * s.fd_u_k * Real.sin s.u_k,
   s.fd_r_k * Real.sin s.u_k + s.r_k * s.fd_u_k * Real.cos s.u_k)

/-- Solver::meo_orbit_to_ecef_rotation_matrix: the standard MEO rotation,
Z rotation by the node longitude after X rotation by the inclination. -/
noncomputable def meo_orbit_to_ecef_rotation_matrix (s : SolverState) :
    Matrix (Fin 3) (Fin 3) ℝ :=
  rotZ s.omega_k * rotX s.i_k

/-- Angle of the fixed X rotation in the BDS-GEO position path
(solver.rs line 76): five degrees converted to radians. -/
noncomputable def beidou_geo_position_x_angle : ℝ := to_radians 5

/-- Angle of the fixed X rotation in the BDS-GEO velocity path
(solver.rs line 102): the literal 5.0, with no degree conversion. -/
noncomputable def beidou_geo_velocity_x_angle : ℝ := 5

/-- Solver::beidou_geo_to_ecef_rotation_matrix: time-dependent Z rotation
composed with the fixed X rotation. -/
noncomputable def beidou_geo_to_ecef_rotation_matrix (s : SolverState) :
    Matrix (Fin 3) (Fin 3) ℝ :=
  rotZ (-omega_bds * s.dt_seconds) * rotX beidou_geo_position_x_angle

/-- Solver::beidou_geo_position_km: both rotation stages applied to the
in-plane position, scaled to kilometers. -/
noncomputable def beidou_geo_position_km (s : SolverState) : Fin 3 → ℝ :=
  (1 / 1000 : ℝ) •
    ((s.beidou_geo_to_ecef_rotation_matrix).mulVec
      ((s.meo_orbit_to_ecef_rotation_matrix).mulVec ![s.r_sv.1, s.r_sv.2.1, 0]))

/-- Solver::beidou_geo_velocity_km: product-rule differentiation of the
two rotation stages; the fixed X rotation here uses the velocity-path
angle. -/
noncomputable def beidou_geo_velocity_km (s : SolverState) : Fin 3 → ℝ :=
  let x := s.r_sv.1
  let y := s.r_sv.2.1
  let sin_omega_k := Real.sin s.omega_k
  let cos_omega_k := Real.cos s.omega_k
  let sin_i_k := Real.sin s.i_k
  let cos_i_k := Real.cos s.i_k
  let fd := s.orbit_velocity
  let fd_xgk := -y * s.fd_omega_k - fd.2 * cos_i_k * sin_omega_k + fd.1 * cos_omega_k
  let fd_ygk := x * s.fd_omega_k + fd.2 * cos_i_k * cos_omega_k + fd.1 * sin_omega_k
  let fd_zgk := fd.2 * sin_i_k + y * s.fd_i_k * cos_i_k
  let rx := rotX beidou_geo_velocity_x_angle
  let rz := rotZ (-omega_bds * s.dt_seconds)
  let sin_omega_tk := Real.sin (omega_bds * s.dt_seconds)
  let cos_omega_tk := Real.cos (omega_bds * s.dt_seconds)
  let fd_rz := s.fd_omega_k •
    !![-sin_omega_tk, cos_omega_tk, 0;
       -cos_omega_tk, -sin_omega_tk, 0;
       0, 0, 0]
  let pos_km := s.beidou_geo_position_km
  let fd_pos : Fin 3 → ℝ := ![fd_xgk, fd_ygk, fd_zgk]
  (fd_rz * rx).mulVec pos_km + (rz * rx).mulVec fd_pos

end SolverState

end BeidouGeoRotation

/-- Empty ephemeris frame: clock terms zero, no orbital field. -/
def empty_ephemeris : Ephemeris :=
  { clock_bias := 0, clock_drift := 0, clock_drift_rate := 0, orbits := [] }

/-- Concrete SBAS satellite (EGNOS PRN 23). -/
def sbas_sv : SV := { constellation := .EGNOS, prn := 23 }

/-- Concrete GPS satellite (PRN 1). -/
def gps_sv : SV := { constellation := .GPS, prn := 1 }

/-- Concrete Glonass satellite (slot 5). -/
def glonass_sv : SV := { constellation := .Glonass, prn := 5 }

/-- Query instant of the SBAS selection counterexample. -/
def c1_query : Epoch := { instant := 1000, time_scale := .GPST }

/-- Time of clock equal to the query instant. -/
def c1_toc_near : Epoch := { instant := 1000, time_scale := .GPST }

/-- Time of clock one hour after the query instant. -/
def c1_toc_far : Epoch := { instant := 4600, time_scale := .GPST }

/-- Ephemeris frame stored under the near time of clock. -/
def c1_eph_near : Ephemeris :=
  { clock_bias := 1 / 1000, clock_drift := 0, clock_drift_rate := 0, orbits := [] }

/-- Ephemeris frame stored under the far time of clock. -/
def c1_eph_far : Ephemeris :=
  { clock_bias := 2 / 1000, clock_drift := 0, clock_drift_rate := 0, orbits := [] }

/-- Navigation record with two frames of the SBAS satellite: one exactly
at the query instant, one an hour later. -/
def c1_record : NavRecord :=
  [({ epoch := c1_toc_near, sv := sbas_sv, frmtype := .ephemeris, msgtype := .lnav },
    c1_eph_near),
   ({ epoch := c1_toc_far, sv := sbas_sv, frmtype := .ephemeris, msgtype := .lnav },
    c1_eph_far)]

/-- GPS ephemeris frame with Time of Ephemeris at second 0 of week 0. -/
def c7_eph1 : Ephemeris :=
  { clock_bias := 0, clock_drift := 0, clock_drift_rate := 0,
    orbits := [("week", .u32 0), ("toe", .f64 0)] }

/-- GPS ephemeris frame with Time of Ephemeris at second 3600 of week 0. -/
def c7_eph2 : Ephemeris :=
  { clock_bias := 0, clock_drift := 0, clock_drift_rate := 0,
    orbits := [("week", .u32 0), ("toe", .f64 3600)] }

/-- Query instant 100 seconds after the GPST reference. -/
def c7_query : Epoch :=
  { instant := TimeScale.ref_seconds .GPST + 100, time_scale := .GPST }

/-- Navigation record with the two GPS frames, both within the validity
window of the query instant. -/
def c7_record : NavRecord :=
  [({ epoch := c7_query, sv := gps_sv, frmtype := .ephemeris, msgtype := .lnav },
    c7_eph1),
   ({ epoch := c7_query, sv := gps_sv, frmtype := .ephemeris, msgtype := .lnav },
    c7_eph2)]

/-- Glonass ephemeris frame broadcasting a Cartesian state with a nonzero
velocity vector and no acceleration fields. -/
def c4_eph : Ephemeris :=
  { clock_bias := 0, clock_drift := 0, clock_drift_rate := 0,
    orbits := [("posX", .f64 10000), ("posY", .f64 20000), ("posZ", .f64 30000),
               ("velX", .f64 1), ("velY", .f64 2), ("velZ", .f64 3)] }

/-- Time of clock of the Cartesian propagation counterexample. -/
def c4_toc : Epoch := { instant := 100, time_scale := .UTC }

/-- Query instant ten seconds before the time of clock. -/
def c4_epoch : Epoch := { instant := 90, time_scale := .UTC }

/-- Ephemeris frame whose health field holds an SBAS/GEO health word. -/
def c10_eph : Ephemeris :=
  { clock_bias := 0, clock_drift := 0, clock_drift_rate := 0,
    orbits := [("health", .geoHealth { bits := 0 })] }

/-- Helper: the clock correction loop is num_iter iterations of the
polynomial refinement step. -/
theorem clock_correction_loop_eq_iterate (a0 a1 a2 : ℚ) (n : ℕ) (dt : ℚ) :
    Ephemeris.clock_correction_loop a0 a1 a2 n dt
      = (fun d => d - (a0 + a1 * d + a2 * d ^ 2))^[n] dt := by
  induction n generalizing dt with
  | zero => rfl
  | succ n ih =>
    rw [Ephemeris.clock_correction_loop, Function.iterate_succ_apply, ih]

/-- Helper: min_by_key is none exactly on the empty list. -/
theorem min_by_key_eq_none {α β : Type} [LinearOrder β] (key : α → β)
    (l : List α) : min_by_key key l = none ↔ l = [] := by
  cases l with
  | nil => simp [min_by_key]
  | cons x xs =>
    simp only [min_by_key]
    cases h : min_by_key key xs with
    | none => simp
    | some y =>
      constructor
      · intro hcontra
        by_cases hle : key x ≤ key y <;> simp [hle] at hcontra
      · intro hcontra
        exact absurd hcontra (List.cons_ne_nil x xs)

/-- Helper: a min_by_key result is an element of the list. -/
theorem min_by_key_mem {α β : Type} [LinearOrder β] (key : α → β)
    {l : List α} {x : α} (h : min_by_key key l = some x) : x ∈ l := by
  induction l with
  | nil => simp [min_by_key] at h
  | cons a as ih =>
    simp only [min_by_key] at h
    cases hmin : min_by_key key as with
    | none =>
      rw [hmin] at h
      dsimp only at h
      simp only [Option.some.injEq] at h
      exact h ▸ List.mem_cons_self a as
    | some y =>
      rw [hmin] at h
      dsimp only at h
      by_cases hle : key a ≤ key y
      · rw [if_pos hle] at h
        simp only [Option.some.injEq] at h
        exact h ▸ List.mem_cons_self a as
      · rw [if_neg hle] at h
        simp only [Option.some.injEq] at h
        subst h
        exact List.mem_cons_of_mem a (ih hmin)

/-- Helper: a min_by_key result has the least key of the list. -/
theorem min_by_key_le {α β : Type} [LinearOrder β] (key : α → β)
    {l : List α} {x : α} (h : min_by_key key l = some x) :
    ∀ y ∈ l, key x ≤ key y := by
  induction l generalizing x with
  | nil => simp [min_by_key] at h
  | cons a as ih =>
    simp only [min_by_key] at h
    cases hmin : min_by_key key as with
    | none =>
      rw [hmin] at h
      dsimp only at h
      simp only [Option.some.injEq] at h
      have : as = [] := (min_by_key_eq_none key as).mp hmin
      subst this
      intro y hy
      rcases List.mem_cons.mp hy with rfl | hy
      · exact h ▸ le_refl _
      · exact absurd hy (List.not_mem_nil y)
    | some z =>
      rw [hmin] at h
      dsimp only at h
      by_cases hle : key a ≤ key z
      · rw [if_pos hle] at h
        simp only [Option.some.injEq] at h
        subst h
        intro y hy
        rcases List.mem_cons.mp hy with rfl | hy
        · exact le_refl _
        · exact le_trans hle (ih hmin y hy)
      · rw [if_neg hle] at h
        simp only [Option.some.injEq] at h
        subst h
        intro y hy
        rcases List.mem_cons.mp hy with rfl | hy
        · exact le_of_lt (lt_of_not_le hle)
        · exact ih hmin y hy

/-- Helper: find? only depends on the pointwise behavior of the
predicate. -/
theorem find?_congr_pred {α : Type} {p q : α → Bool} (l : List α)
    (h : ∀ a, p a = q a) : l.find? p = l.find? q := by
  induction l with
  | nil => rfl
  | cons a as ih =>
    by_cases ha : p a = true
    · rw [List.find?_cons_of_pos _ ha, List.find?_cons_of_pos _ ((h a) ▸ ha)]
    · have ha' : q a = false := by
        rw [← h a]
        exact Bool.not_eq_true _ ▸ (Bool.eq_false_iff.mpr ha)
      rw [List.find?_cons_of_neg _ (Bool.eq_false_iff.mp (Bool.not_eq_true _ ▸
        (by simpa using ha))), List.find?_cons_of_neg _ (by simp [ha']), ih]

/-- Helper: min_by_key returns the first element whose key is least, the
Rust min_by_key tie-breaking. -/
theorem min_by_key_eq_find? {α β : Type} [LinearOrder β] [DecidableEq α]
    (key : α → β) (l : List α) :
    min_by_key key l
      = l.find? (fun x => decide (∀ y ∈ l, key x ≤ key y)) := by
  induction l with
  | nil => rfl
  | cons a as ih =>
    simp only [min_by_key]
    cases hmin : min_by_key key as with
    | none =>
      have : as = [] := (min_by_key_eq_none key as).mp hmin
      subst this
      simp [List.find?]
    | some y =>
      have hy_mem : y ∈ as := min_by_key_mem key hmin
      have hy_le : ∀ z ∈ as, key y ≤ key z := min_by_key_le key hmin
      by_cases hle : key a ≤ key y
      · have hpa : ∀ z ∈ a :: as, key a ≤ key z := by
          intro z hz
          rcases List.mem_cons.mp hz with rfl | hz
          · exact le_refl _
          · exact le_trans hle (hy_le z hz)
        dsimp only
        rw [if_pos hle, List.find?_cons_of_pos _ (by simpa using hpa)]
      · have hya : key y < key a := lt_of_not_le hle
        have hpa : ¬ ∀ z ∈ a :: as, key a ≤ key z := by
          intro hall
          exact absurd (hall y (List.mem_cons_of_mem _ hy_mem)) (not_le.mpr hya)
        dsimp only
        rw [if_neg hle, List.find?_cons_of_neg _ (by simpa using hpa)]
        have hequiv : ∀ z : α, (decide (∀ w ∈ a :: as, key z ≤ key w) : Bool)
            = decide (∀ w ∈ as, key z ≤ key w) := by
          intro z
          by_cases hz : ∀ w ∈ as, key z ≤ key w
          · have hz' : ∀ w ∈ a :: as, key z ≤ key w := by
              intro w hw
              rcases List.mem_cons.mp hw with rfl | hw
              · exact le_trans (hz y hy_mem) (le_of_lt hya)
              · exact hz w hw
            simp [hz, hz']
          · have hz' : ¬ ∀ w ∈ a :: as, key z ≤ key w := fun hall =>
              hz fun w hw => hall w (List.mem_cons_of_mem _ hw)
            simp [hz, hz']
        rw [find?_congr_pred as hequiv, ← ih, hmin]

/-- Helper: starting from the i-th iterate, the Kepler loop body searches
the next fuel indices for the first converged step. -/
theorem kepler_loop_go_eq_find? (sinq : ℚ → ℚ) (m_k ecc : ℚ) :
    ∀ (fuel i : ℕ),
      kepler_loop_go sinq m_k ecc fuel (kepler_iterate sinq m_k ecc i)
        = ((List.range' i fuel).find? fun j =>
            decide (|kepler_iterate sinq m_k ecc (j + 1)
              - kepler_iterate sinq m_k ecc j| < kepler_tolerance)).map
          (fun j => kepler_iterate sinq m_k ecc (j + 1)) := by
  intro fuel
  induction fuel with
  | zero => intro i; rfl
  | succ fuel ih =>
    intro i
    rw [kepler_loop_go]
    have hek : m_k + ecc * sinq (kepler_iterate sinq m_k ecc i)
        = kepler_iterate sinq m_k ecc (i + 1) := rfl
    rw [List.range'_succ]
    by_cases htol : |kepler_iterate sinq m_k ecc (i + 1)
        - kepler_iterate sinq m_k ecc i| < kepler_tolerance
    · rw [List.find?_cons_of_pos _ (by simpa using htol)]
      simp only [hek]
      rw [if_pos htol]
      simp
    · rw [List.find?_cons_of_neg _ (by simpa using htol)]
      simp only [hek]
      rw [if_neg htol]
      exact ih (i + 1)

/-- C3 counterexample: the validity window of an SBAS/GEO constellation
is Duration::from_days(1.25), not one day, refuting the claim at the
concrete constellation EGNOS. -/
theorem c3_sbas_window_not_one_day :
    Ephemeris.validity_duration Constellation.EGNOS
        = some (Duration.from_days (5 / 4))
    ∧ Ephemeris.validity_duration Constellation.EGNOS
        ≠ some (Duration.from_days 1) := by
  constructor
  · rfl
  · intro hcontra
    have h2 : some (Duration.from_days (5 / 4))
        = some (Duration.from_days 1) := hcontra
    have h3 := Option.some.inj h2
    norm_num [Duration.from_days] at h3

/-- C3 (amended): validity_duration returns 7200 s for GPS, QZSS and
IRNSS, 10800 s for Galileo, 21600 s for BeiDou, 1800 s for GLONASS,
exactly 1.25 days (108000 s) for any SBAS/GEO constellation, and none for
every other constellation. -/
theorem c3_validity_duration_amended (c : Constellation) :
    Ephemeris.validity_duration c = validity_duration_amended c := by
  cases c <;>
    norm_num [Ephemeris.validity_duration, validity_duration_amended,
      Duration.from_seconds, Duration.from_days, Constellation.is_sbas]

/-- C5: the Kepler-equation solver iterates E 0 = 0,
E (k+1) = M + e * sin (E k), returns the iterate of the first step within
the iteration budget whose consecutive difference is below 1e-10, and
fails with no result exactly when no step up to max_iteration meets the
tolerance, that is when the counter exceeds max_iteration. -/
theorem c5_kepler_solver_loop_characterization (sinq : ℚ → ℚ)
    (m_k ecc : ℚ) (max_iteration : ℕ) :
    kepler_solver sinq m_k ecc max_iteration
      = kepler_solver_spec sinq m_k ecc max_iteration := by
  unfold kepler_solver kepler_solver_loop kepler_solver_spec
  rw [Nat.sub_zero, List.range_eq_range']
  exact kepler_loop_go_eq_find? sinq m_k ecc (max_iteration + 1) 0

/-- C6: is_valid compares the epoch to ToC for GLONASS and SBAS/GEO
satellites and to ToE otherwise, against the constellation validity
window, and is false whenever the window is undefined or (in the other
branch) ToE is not computable. -/
theorem c6_is_valid_matches_spec (e : Ephemeris) (sv : SV)
    (toc epoch : Epoch) :
    e.is_valid sv toc epoch = e.is_valid_spec sv toc epoch := by
  unfold Ephemeris.is_valid Ephemeris.is_valid_spec
  cases hvd : Ephemeris.validity_duration sv.constellation <;>
    cases hb : (sv.constellation.is_sbas
        || sv.constellation == Constellation.Glonass) <;>
      cases htoe : e.toe sv <;>
        simp [hvd, hb, htoe]

/-- C8: clock_correction moves both instants to the satellite native
timescale, seeds dt with their difference in seconds, runs exactly
num_iter refinement passes dt minus the clock polynomial at dt, returns
the polynomial at the final dt as a Duration, and fails with NotSupported
exactly when the constellation has no timescale. -/
theorem c8_clock_correction_characterization (e : Ephemeris) (sv : SV)
    (toc epoch : Epoch) (num_iter : ℕ) :
    e.clock_correction sv toc epoch num_iter
      = e.clock_correction_spec sv toc epoch num_iter := by
  unfold Ephemeris.clock_correction Ephemeris.clock_correction_spec
  cases hts : sv.constellation.timescale with
  | none => rfl
  | some ts => simp [clock_correction_loop_eq_iterate]

/-- C9: the ToE accessor fails with BadOperation on every GLONASS or
SBAS/GEO satellite, whatever the orbit store contains. -/
theorem c9_toe_bad_operation (e : Ephemeris) (sv : SV)
    (h : sv.constellation.is_sbas = true
      ∨ sv.constellation = Constellation.Glonass) :
    e.toe sv = .error .BadOperation := by
  unfold Ephemeris.toe
  rcases h with h | h
  · simp [h]
  · simp [h, Constellation.is_sbas]

/-- C9 witness: the ToE accessor on a concrete EGNOS satellite. -/
theorem c9_toe_bad_operation_witness :
    (sbas_sv.constellation.is_sbas = true
      ∨ sbas_sv.constellation = Constellation.Glonass)
    ∧ empty_ephemeris.toe sbas_sv = .error .BadOperation :=
  ⟨Or.inl rfl, c9_toe_bad_operation empty_ephemeris sbas_sv (Or.inl rfl)⟩

/-- C10: whenever the health field holds an SBAS/GEO health word, the
health decision is false, whatever the word says. -/
theorem c10_geo_health_never_healthy (e : Ephemeris) (flag : GeoHealth)
    (h : e.get_orbit "health" = some (.geoHealth flag)) :
    e.satellite_is_healthy = false := by
  unfold Ephemeris.satellite_is_healthy
  rw [h]
  rfl

/-- C10 witness: a concrete frame carrying a GEO health word. -/
theorem c10_geo_health_never_healthy_witness :
    c10_eph.get_orbit "health" = some (.geoHealth { bits := 0 })
    ∧ c10_eph.satellite_is_healthy = false :=
  ⟨rfl, c10_geo_health_never_healthy c10_eph { bits := 0 } rfl⟩

/-- C1: evaluation of the SBAS selection at a record holding one frame
exactly at the query instant and one frame an hour later: the selection
returns the later frame, although the first one is strictly closer in
absolute difference, because the source minimizes the signed difference
of the query instant and ToC. -/
theorem c1_sbas_selection_latest_not_closest :
    nav_ephemeris_selection c1_record sbas_sv c1_query
        = some (c1_toc_far, c1_toc_far, c1_eph_far)
    ∧ (c1_query.sub c1_toc_near).abs < (c1_query.sub c1_toc_far).abs := by
  constructor
  · norm_num [nav_ephemeris_selection, selection_pool_sbas, min_by_key,
      sbas_sv, c1_record, c1_query, c1_toc_near, c1_toc_far, c1_eph_near,
      c1_eph_far, Epoch.sub, Constellation.is_sbas]
  · norm_num [Epoch.sub, Duration.abs, c1_query, c1_toc_near, c1_toc_far]

/-- C4: evaluation of the Cartesian branch of sv_position_velocity_km at
a concrete GLONASS frame broadcasting a nonzero velocity vector: the
successful result carries the propagated position and identically zero
velocity components. -/
theorem c4_cartesian_velocity_zeroed :
    (glonass_sv.constellation.is_sbas
        || glonass_sv.constellation == Constellation.Glonass) = true
    ∧ c4_eph.sv_position_velocity_km_cartesian c4_toc c4_epoch
        = .ok { x := 10010, y := 20020, z := 30030, vx := 0, vy := 0, vz := 0 }
    ∧ c4_eph.get_orbit_field_f64_opt "velX" = some 1 := by
  refine ⟨rfl, ?_, rfl⟩
  have hpx : c4_eph.get_orbit_field_f64_opt "posX" = some 10000 := rfl
  have hpy : c4_eph.get_orbit_field_f64_opt "posY" = some 20000 := rfl
  have hpz : c4_eph.get_orbit_field_f64_opt "posZ" = some 30000 := rfl
  have hvx : c4_eph.get_orbit_field_f64_opt "velX" = some 1 := rfl
  have hvy : c4_eph.get_orbit_field_f64_opt "velY" = some 2 := rfl
  have hvz : c4_eph.get_orbit_field_f64_opt "velZ" = some 3 := rfl
  have hax : c4_eph.get_orbit_field_f64_opt "accelX" = none := rfl
  have hay : c4_eph.get_orbit_field_f64_opt "accelY" = none := rfl
  have haz : c4_eph.get_orbit_field_f64_opt "accelZ" = none := rfl
  unfold Ephemeris.sv_position_velocity_km_cartesian
  simp only [hpx, hpy, hpz, hvx, hvy, hvz, hax, hay, haz]
  norm_num [c4_toc, c4_epoch, Epoch.sub, Duration.to_seconds]

/-- C7: for a non-SBAS satellite, the selection equals the first element
of the validity-and-ToE filtered pool whose absolute difference of query
instant and ToE is least (ties broken by iteration order), and is none
exactly when the pool is empty. -/
theorem c7_selection_others_characterization (record : NavRecord) (sv : SV)
    (t : Epoch) (h : sv.constellation.is_sbas = false) :
    nav_ephemeris_selection record sv t
      = (selection_pool_others record sv t).find? (fun c =>
          decide (∀ c2 ∈ selection_pool_others record sv t,
            (t.sub c.2.1).abs ≤ (t.sub c2.2.1).abs))
    ∧ (nav_ephemeris_selection record sv t = none
        ↔ selection_pool_others record sv t = []) := by
  have hsel : nav_ephemeris_selection record sv t
      = min_by_key (fun c => (t.sub c.2.1).abs)
        (selection_pool_others record sv t) := by
    unfold nav_ephemeris_selection
    simp [h]
  constructor
  · rw [hsel]
    exact min_by_key_eq_find? _ _
  · rw [hsel]
    exact min_by_key_eq_none _ _

/-- C2 counterexample: the fixed X rotation of the BDS-GEO velocity path
is not the 5-degree rotation of the position path — the velocity path
rotates by 5 radians, the position path by 5 degrees in radians, and the
two rotation matrices differ (their sine entries have opposite signs). -/
theorem c2_beidou_geo_velocity_x_rotation_mismatch :
    rotX SolverState.beidou_geo_velocity_x_angle
        ≠ rotX SolverState.beidou_geo_position_x_angle
    ∧ SolverState.beidou_geo_position_x_angle = to_radians 5 := by
  constructor
  · intro h
    have h21 : rotX SolverState.beidou_geo_velocity_x_angle 2 1
        = rotX SolverState.beidou_geo_position_x_angle 2 1 := by rw [h]
    have hvel : rotX SolverState.beidou_geo_velocity_x_angle 2 1
        = Real.sin 5 := rfl
    have hpos_entry : rotX SolverState.beidou_geo_position_x_angle 2 1
        = Real.sin ((5 : ℝ) * Real.pi / 180) := rfl
    rw [hvel, hpos_entry] at h21
    have hneg : Real.sin (5 : ℝ) < 0 := by
      have h0 : 0 < (5 : ℝ) - Real.pi := by nlinarith [Real.pi_lt_d2]
      have h1 : (5 : ℝ) - Real.pi < Real.pi := by nlinarith [Real.pi_gt_d6]
      have hs : 0 < Real.sin ((5 : ℝ) - Real.pi) :=
        Real.sin_pos_of_pos_of_lt_pi h0 h1
      have heq : Real.sin ((5 : ℝ) - Real.pi + Real.pi)
          = -Real.sin ((5 : ℝ) - Real.pi) := by
        rw [Real.sin_add]
        simp
      rw [sub_add_cancel] at heq
      rw [heq]
      linarith
    have hpos : 0 < Real.sin ((5 : ℝ) * Real.pi / 180) := by
      apply Real.sin_pos_of_pos_of_lt_pi
      · positivity
      · nlinarith [Real.pi_pos]
    linarith
  · rfl

/-- C7 witness: a concrete GPS record with two valid frames. -/
theorem c7_selection_others_witness :
    gps_sv.constellation.is_sbas = false
    ∧ (nav_ephemeris_selection c7_record gps_sv c7_query
        = (selection_pool_others c7_record gps_sv c7_query).find? (fun c =>
            decide (∀ c2 ∈ selection_pool_others c7_record gps_sv c7_query,
              (c7_query.sub c.2.1).abs ≤ (c7_query.sub c2.2.1).abs))
      ∧ (nav_ephemeris_selection c7_record gps_sv c7_query = none
          ↔ selection_pool_others c7_record gps_sv c7_query = [])) :=
  ⟨rfl, c7_selection_others_characterization c7_record gps_sv c7_query rfl⟩

end RinexNav
